import Mathlib

/-!
Shallow embedding of the statistical-tests-rs library (src/lib.rs).
Floating-point (f64) values are idealized as real numbers; lists of
observations stand for slices.  Each definition mirrors one Rust item,
keeping the source's names and computation structure (the imperative
accumulation loops become left folds starting from 0.0).
-/

namespace StatTests

/-- Rust: `pub fn mean(list: &[f64]) -> f64`, the sum of the slice divided
by its length. -/
noncomputable def mean (list : List ℝ) : ℝ :=
  list.sum / (list.length : ℝ)

/-- Rust: `pub struct SampleStatistics`. -/
structure SampleStatistics where
  sample_mean : ℝ
  standard_error : ℝ
  n : ℕ

/-- Rust: `pub struct PopulationStatistics`. -/
structure PopulationStatistics where
  population_mean : ℝ
  standard_error : ℝ
  n : ℕ

/-- Rust: `pub fn sample_standard_deviation(array: &[f64]) -> f64`.
Two passes: the mean, then the accumulated squared deviations, divided by
`n - 1` and square-rooted. -/
noncomputable def sample_standard_deviation (array : List ℝ) : ℝ :=
  let n := array.length
  let s_mean := mean array
  let sum := array.foldl (fun s xi => s + (xi - s_mean) ^ 2) 0
  Real.sqrt (sum / ((n : ℝ) - 1))

/-- Rust: `pub fn population_standard_deviation(array: &[f64]) -> f64`.
Same two passes, dividing by `n`. -/
noncomputable def population_standard_deviation (array : List ℝ) : ℝ :=
  let n := array.length
  let p_mean := mean array
  let sum := array.foldl (fun s xi => s + (xi - p_mean) ^ 2) 0
  Real.sqrt (sum / (n : ℝ))

/-- Rust: `impl GetStatistics for SampleStatistics { fn from_array ... }`. -/
noncomputable def SampleStatistics.from_array (array : List ℝ) : SampleStatistics :=
  { sample_mean := mean array
    standard_error := sample_standard_deviation array
    n := array.length }

/-- Rust: `impl GetStatistics for PopulationStatistics { fn from_array ... }`. -/
noncomputable def PopulationStatistics.from_array (array : List ℝ) : PopulationStatistics :=
  { population_mean := mean array
    standard_error := population_standard_deviation array
    n := array.length }

/-- Rust: `impl StandDev for Population { fn standard_deviation ... }`,
the duplicated in-trait copy of the population standard deviation. -/
noncomputable def Population.standard_deviation (array : List ℝ) : ℝ :=
  let n := array.length
  let p_mean := mean array
  let sum := array.foldl (fun s xi => s + (xi - p_mean) ^ 2) 0
  Real.sqrt (sum / (n : ℝ))

/-- Rust: `impl StandDev for Sample { fn standard_deviation ... }`,
the duplicated in-trait copy of the sample standard deviation. -/
noncomputable def Sample.standard_deviation (array : List ℝ) : ℝ :=
  let n := array.length
  let s_mean := mean array
  let sum := array.foldl (fun s xi => s + (xi - s_mean) ^ 2) 0
  Real.sqrt (sum / ((n : ℝ) - 1))

/-- Rust: `pub struct TTestResult`. -/
structure TTestResult where
  t : ℝ
  p_value : ℝ

/-- Rust: `pub fn two_samp_t_test(samp_1, samp_2) -> TTestResult`.  The
`p_value` is the hard-coded placeholder `0.05`. -/
noncomputable def two_samp_t_test (samp_1 samp_2 : SampleStatistics) : TTestResult :=
  let mean_delta := samp_1.sample_mean - samp_2.sample_mean
  let stand :=
    samp_1.standard_error / (samp_1.n : ℝ) + samp_2.standard_error / (samp_2.n : ℝ)
  let t := mean_delta / Real.sqrt stand
  let p_value : ℝ := 0.05
  { t := t, p_value := p_value }

/-- The accumulation loop `for xi in array { sum += f(xi) }` starting from
an accumulator `a` computes `a` plus the sum of the mapped list. -/
theorem foldl_add_eq_sum (f : ℝ → ℝ) (xs : List ℝ) (a : ℝ) :
    xs.foldl (fun s xi => s + f xi) a = a + (xs.map f).sum := by
  induction xs generalizing a with
  | nil => simp
  | cons x xs ih => simp [List.foldl_cons, ih, add_assoc]

/-- Claim C1: for every pair of SampleStatistics values, the t field of
`two_samp_t_test` is the difference of the sample means divided by the
square root of `standard_error₁ / n₁ + standard_error₂ / n₂`, and the
p_value field is the hard-coded constant 0.05. -/
theorem C1_two_samp_t_test_formula (s1 s2 : SampleStatistics) :
    (two_samp_t_test s1 s2).t =
      (s1.sample_mean - s2.sample_mean) /
        Real.sqrt (s1.standard_error / (s1.n : ℝ) + s2.standard_error / (s2.n : ℝ)) ∧
    (two_samp_t_test s1 s2).p_value = 0.05 :=
  ⟨rfl, rfl⟩

/-- Claim C2: both `from_array` constructors store the slice length in `n`,
the mean of the slice in the mean field, and the corresponding standard
deviation in `standard_error`. -/
theorem C2_from_array_fields (xs : List ℝ) :
    (SampleStatistics.from_array xs).n = xs.length ∧
    (SampleStatistics.from_array xs).sample_mean = mean xs ∧
    (SampleStatistics.from_array xs).standard_error = sample_standard_deviation xs ∧
    (PopulationStatistics.from_array xs).n = xs.length ∧
    (PopulationStatistics.from_array xs).population_mean = mean xs ∧
    (PopulationStatistics.from_array xs).standard_error = population_standard_deviation xs :=
  ⟨rfl, rfl, rfl, rfl, rfl, rfl⟩

/-- Claim C10: the `StandDev` trait implementations for `Sample` and
`Population` agree with the free functions `sample_standard_deviation` and
`population_standard_deviation` on every slice. -/
theorem C10_trait_matches_free_functions (xs : List ℝ) :
    Sample.standard_deviation xs = sample_standard_deviation xs ∧
    Population.standard_deviation xs = population_standard_deviation xs :=
  ⟨rfl, rfl⟩

/-- Claim C3: on a slice of at least two observations,
`sample_standard_deviation` is the square root of the sum of squared
deviations from the mean divided by `n - 1`, and
`population_standard_deviation` is the same with divisor `n`. -/
theorem C3_standard_deviation_two_pass (xs : List ℝ) (h : 2 ≤ xs.length) :
    sample_standard_deviation xs =
      Real.sqrt ((xs.map fun xi => (xi - mean xs) ^ 2).sum / ((xs.length : ℝ) - 1)) ∧
    population_standard_deviation xs =
      Real.sqrt ((xs.map fun xi => (xi - mean xs) ^ 2).sum / (xs.length : ℝ)) := by
  constructor <;>
    simp only [sample_standard_deviation, population_standard_deviation,
      foldl_add_eq_sum, zero_add]

/-- Witness for C3 at the concrete slice [1, 2]. -/
theorem C3_standard_deviation_two_pass_witness :
    2 ≤ ([1, 2] : List ℝ).length ∧
    sample_standard_deviation [1, 2] =
      Real.sqrt ((([1, 2] : List ℝ).map fun xi => (xi - mean [1, 2]) ^ 2).sum /
        ((([1, 2] : List ℝ).length : ℝ) - 1)) :=
  ⟨by decide, (C3_standard_deviation_two_pass [1, 2] (by decide)).1⟩

/-- Claim C4: on a slice of at least one observation, `mean` is the sum of
the elements divided by the number of elements; in particular the mean of a
one-element slice [x] is x. -/
theorem C4_mean_spec (xs : List ℝ) (h : 1 ≤ xs.length) :
    mean xs = xs.sum / (xs.length : ℝ) ∧ ∀ x : ℝ, mean [x] = x := by
  refine ⟨rfl, fun x => ?_⟩
  simp [mean]

/-- Witness for C4 at the concrete slice [3]. -/
theorem C4_mean_spec_witness :
    1 ≤ ([3] : List ℝ).length ∧ mean [3] = ([3] : List ℝ).sum / (([3] : List ℝ).length : ℝ) :=
  ⟨by decide, (C4_mean_spec [3] (by decide)).1⟩

/-- Claim C5: on a slice of at least two not-all-equal observations, the
population standard deviation is at most the sample standard deviation. -/
theorem C5_population_le_sample (xs : List ℝ) (h2 : 2 ≤ xs.length)
    (hne : ∃ a ∈ xs, ∃ b ∈ xs, a ≠ b) :
    population_standard_deviation xs ≤ sample_standard_deviation xs := by
  have hsum : 0 ≤ (xs.map fun xi => (xi - mean xs) ^ 2).sum := by
    apply List.sum_nonneg
    intro y hy
    obtain ⟨x, _, rfl⟩ := List.mem_map.mp hy
    positivity
  have hn : (2 : ℝ) ≤ (xs.length : ℝ) := by exact_mod_cast h2
  simp only [population_standard_deviation, sample_standard_deviation,
    foldl_add_eq_sum, zero_add]
  apply Real.sqrt_le_sqrt
  apply div_le_div_of_nonneg_left hsum (by linarith) (by linarith)

/-- Witness for C5 at the concrete slice [1, 2]. -/
theorem C5_population_le_sample_witness :
    (2 ≤ ([1, 2] : List ℝ).length ∧
      ∃ a ∈ ([1, 2] : List ℝ), ∃ b ∈ ([1, 2] : List ℝ), a ≠ b) ∧
    population_standard_deviation [1, 2] ≤ sample_standard_deviation [1, 2] :=
  ⟨⟨by decide, 1, by simp, 2, by simp, by norm_num⟩,
    C5_population_le_sample [1, 2] (by decide)
      ⟨1, by simp, 2, by simp, by norm_num⟩⟩

/-- Claim C6: mean, both standard deviations and both statistics
constructors are order-invariant: a permutation of the slice leaves every
result unchanged. -/
theorem C6_order_invariant (xs ys : List ℝ) (h : xs.Perm ys) :
    mean xs = mean ys ∧
    sample_standard_deviation xs = sample_standard_deviation ys ∧
    population_standard_deviation xs = population_standard_deviation ys ∧
    SampleStatistics.from_array xs = SampleStatistics.from_array ys ∧
    PopulationStatistics.from_array xs = PopulationStatistics.from_array ys := by
  have hlen := h.length_eq
  have hsum := h.sum_eq
  have hmean : mean xs = mean ys := by rw [mean, mean, hlen, hsum]
  have hmap : ∀ m : ℝ,
      ((xs.map fun xi => (xi - m) ^ 2)).sum = ((ys.map fun xi => (xi - m) ^ 2)).sum :=
    fun m => (h.map _).sum_eq
  have hssd : sample_standard_deviation xs = sample_standard_deviation ys := by
    simp only [sample_standard_deviation, foldl_add_eq_sum, zero_add, hmean, hmap, hlen]
  have hpsd : population_standard_deviation xs = population_standard_deviation ys := by
    simp only [population_standard_deviation, foldl_add_eq_sum, zero_add, hmean, hmap, hlen]
  refine ⟨hmean, hssd, hpsd, ?_, ?_⟩ <;>
    simp only [SampleStatistics.from_array, PopulationStatistics.from_array,
      hmean, hssd, hpsd, hlen]

/-- Witness for C6 at the concrete permutation [1, 2] ~ [2, 1]. -/
theorem C6_order_invariant_witness :
    ([1, 2] : List ℝ).Perm [2, 1] ∧ mean [1, 2] = mean ([2, 1] : List ℝ) :=
  ⟨List.Perm.swap 2 1 [], (C6_order_invariant [1, 2] [2, 1] (List.Perm.swap 2 1 [])).1⟩

/-- Claim C7: on a constant slice of length at least two, both standard
deviations are exactly 0. -/
theorem C7_constant_sd_zero (xs : List ℝ) (x : ℝ) (hx : ∀ y ∈ xs, y = x)
    (h2 : 2 ≤ xs.length) :
    sample_standard_deviation xs = 0 ∧ population_standard_deviation xs = 0 := by
  have hn : xs.length ≠ 0 := by omega
  have hnR : (xs.length : ℝ) ≠ 0 := Nat.cast_ne_zero.mpr hn
  have hmean : mean xs = x := by
    rw [mean, List.sum_eq_card_nsmul xs x hx, nsmul_eq_mul,
      mul_div_cancel_left₀ x hnR]
  have hzero : (xs.map fun xi => (xi - mean xs) ^ 2).sum = 0 := by
    apply List.sum_eq_zero
    intro y hy
    obtain ⟨z, hz, rfl⟩ := List.mem_map.mp hy
    rw [hmean, hx z hz, sub_self]
    ring
  constructor <;>
    simp only [sample_standard_deviation, population_standard_deviation,
      foldl_add_eq_sum, zero_add, hzero, zero_div, Real.sqrt_zero]

/-- Witness for C7 at the concrete constant slice [5, 5]. -/
theorem C7_constant_sd_zero_witness :
    ((∀ y ∈ ([5, 5] : List ℝ), y = 5) ∧ 2 ≤ ([5, 5] : List ℝ).length) ∧
    sample_standard_deviation [5, 5] = 0 :=
  ⟨⟨fun y hy => by simpa using hy, by decide⟩,
    (C7_constant_sd_zero [5, 5] 5 (fun y hy => by simpa using hy) (by decide)).1⟩

/-- Claim C8: on two SampleStatistics values with equal sample means, equal
standard errors and equal counts, the t field of the two-sample t test is 0. -/
theorem C8_t_zero_on_identical (s1 s2 : SampleStatistics)
    (hm : s1.sample_mean = s2.sample_mean)
    (hs : s1.standard_error = s2.standard_error) (hn : s1.n = s2.n) :
    (two_samp_t_test s1 s2).t = 0 := by
  have ht : (two_samp_t_test s1 s2).t =
      (s1.sample_mean - s2.sample_mean) /
        Real.sqrt (s1.standard_error / (s1.n : ℝ) + s2.standard_error / (s2.n : ℝ)) := rfl
  rw [ht, hm, sub_self, zero_div]

/-- Witness for C8 at a concrete pair of identical statistics. -/
theorem C8_t_zero_on_identical_witness :
    ((⟨1, 2, 3⟩ : SampleStatistics).sample_mean = (⟨1, 2, 3⟩ : SampleStatistics).sample_mean ∧
      (⟨1, 2, 3⟩ : SampleStatistics).standard_error =
        (⟨1, 2, 3⟩ : SampleStatistics).standard_error ∧
      (⟨1, 2, 3⟩ : SampleStatistics).n = (⟨1, 2, 3⟩ : SampleStatistics).n) ∧
    (two_samp_t_test ⟨1, 2, 3⟩ ⟨1, 2, 3⟩).t = 0 :=
  ⟨⟨rfl, rfl, rfl⟩, C8_t_zero_on_identical ⟨1, 2, 3⟩ ⟨1, 2, 3⟩ rfl rfl rfl⟩

end StatTests
